import Mathlib

/-!
Shallow embedding of `libavcodec/libwebpdec.c` (animated WebP decoder).

The C file drives an opaque `WebPAnimDecoder` (libwebp) through FFmpeg's
per-call decode protocol.  We embed:

* the parsed container metadata (`Container`), i.e. what
  `WebPAnimDecoderGetInfo` reports plus the sequence of composited frames
  the library yields on successive `WebPAnimDecoderGetNext` calls;
* the decoder handle (`AnimDec`) as its only observable state, the read
  position of the next frame;
* the codec private context `AnimatedWebPContext` (with the `AVCodecContext`
  fields `width`/`height` that the C code stores through `avctx` folded in);
* per-call outcomes of the external collaborators (`ExtCalls`): success of
  `WebPAnimDecoderNew`, of `WebPAnimDecoderGetNext` beyond frame
  availability, and the return value of `ff_get_buffer`.

`loop_sent` / `loop_to_send` are `uint32_t` in the source; they are modelled
as `Nat` with the increment reduced mod `2^32`, and `Container.loopCount`
stands for the value of the `uint32_t` field `WebPAnimInfo.loop_count`.
-/

/-- One composited RGBA frame as yielded by `WebPAnimDecoderGetNext`:
a millisecond timestamp and the canvas pixel bytes (indexed access). -/
structure WebPFrame where
  timestampMs : Int
  pix : Nat → Nat

/-- Parsed animated WebP container: `WebPAnimDecoderGetInfo` metadata plus
the frame sequence.  `loopCount` is the value of the `uint32_t`
`loop_count` field (`0` declares infinite looping in the WebP format). -/
structure Container where
  frameCount : Nat
  loopCount : Nat
  canvasWidth : Nat
  canvasHeight : Nat
  frames : Nat → WebPFrame

/-- `WebPAnimDecoder` handle state: index of the next frame to yield. -/
structure AnimDec where
  pos : Nat
deriving DecidableEq

/-- Per-call outcomes of the external collaborators. -/
structure ExtCalls where
  newOk : Bool
  getNextOk : Bool
  getBufferRet : Int
deriving DecidableEq

/-- `2^32`, the modulus of the `uint32_t` counters. -/
def UINT32_CARD : Nat := 4294967296

/-- `WebPAnimDecoderHasMoreFrames`: frames remain in the current pass. -/
def WebPAnimDecoderHasMoreFrames (c : Container) (d : AnimDec) : Bool :=
  decide (d.pos < c.frameCount)

/-- `WebPAnimDecoderReset`: rewind the read position to the beginning.
Also the state of a freshly constructed decoder. -/
def WebPAnimDecoderReset : AnimDec := { pos := 0 }

/-- `WebPAnimDecoderGetNext`: yield the next composited frame and advance,
or fail (library failure `ext.getNextOk = false`, or no frame available). -/
def WebPAnimDecoderGetNext (c : Container) (ext : ExtCalls) (d : AnimDec) :
    Option (WebPFrame × AnimDec) :=
  if ext.getNextOk && WebPAnimDecoderHasMoreFrames c d then
    some (c.frames d.pos, { pos := d.pos + 1 })
  else
    none

/-- The codec private context `AnimatedWebPContext`.  `dec` models the
`WebPAnimDecoder *` pointer (its payload is the handle state),
`file_content` the `AVBufferRef *` payload reference.  The `avctx` fields
`width`/`height` written by the C code are folded into this record. -/
structure AnimatedWebPContext where
  dec : Option AnimDec
  file_content : Option (List Nat)
  loop_to_send : Nat
  loop_sent : Nat
  ignore_loop : Bool
  width : Nat
  height : Nat
deriving DecidableEq

/-- `AV_PIX_FMT_RGBA` as the only pixel format this decoder emits. -/
inductive PixelFormat where
  | rgba
deriving DecidableEq

/-- `AV_PICTURE_TYPE_I`. -/
inductive PictType where
  | I
deriving DecidableEq

/-- The fields of the output `AVFrame` that the decoder stamps:
`data0` is the pixel plane `data[0]` filled by the `memcpy`. -/
structure AVFrame where
  width : Nat
  height : Nat
  format : PixelFormat
  pts : Int
  pkt_dts : Int
  pict_type : PictType
  data0 : List Nat
deriving DecidableEq

/-- Result of one `decode_libwebp_frame` call: a produced frame together
with the `int` return value, `AVERROR_EOF`, `AVERROR(EINVAL)` or
`AVERROR(ENOMEM)`. -/
inductive DecodeResult where
  | frame (p : AVFrame) (ret : Int)
  | eof
  | einval
  | enomem
deriving DecidableEq

/-- `*got_frame = 1` happened. -/
def DecodeResult.isFrame : DecodeResult → Bool
  | .frame _ _ => true
  | _ => false

/-- The call returned `AVERROR_EOF`. -/
def DecodeResult.isEof : DecodeResult → Bool
  | .eof => true
  | _ => false

/-- `decode_libwebp_init`: the context after `open`.  FFmpeg zero-allocates
`priv_data` (so `dec = NULL`, `loop_to_send = 0`), the option system writes
`ignore_loop`, and the init function sets `file_content = NULL` and
`loop_sent = 0`. -/
def decode_libwebp_init (ignoreLoop : Bool) : AnimatedWebPContext :=
  { dec := none, file_content := none, loop_to_send := 0, loop_sent := 0,
    ignore_loop := ignoreLoop, width := 0, height := 0 }

/-- Lines 125-152 of the C file: the end-of-stream comparison
`loop_sent >= loop_to_send`, then `WebPAnimDecoderGetNext`, then
`ff_get_buffer` and the frame stamping/`memcpy`.  The argument `s` is the
context after the loop-boundary block, `d` the decoder handle state. -/
def decodePost (c : Container) (ext : ExtCalls) (s : AnimatedWebPContext)
    (d : AnimDec) : DecodeResult × AnimatedWebPContext :=
  if s.loop_sent ≥ s.loop_to_send then
    (.eof, { s with dec := some d })
  else
    match WebPAnimDecoderGetNext c ext d with
    | none => (.einval, { s with dec := some d })
    | some (fr, d2) =>
      if ext.getBufferRet ≠ 0 then
        (.enomem, { s with dec := some d2 })
      else
        (.frame { width := s.width, height := s.height, format := .rgba,
                  pts := fr.timestampMs, pkt_dts := 0, pict_type := .I,
                  data0 := (List.range (s.width * s.height * 4)).map fr.pix }
                ext.getBufferRet,
         { s with dec := some d2 })

/-- Lines 120-123: if no frames remain in the current pass, increment
`loop_sent` (a `uint32_t`) and reset the decoder. -/
def loop_boundary (c : Container) (s : AnimatedWebPContext) (d : AnimDec) :
    AnimatedWebPContext × AnimDec :=
  if WebPAnimDecoderHasMoreFrames c d then (s, d)
  else ({ s with loop_sent := (s.loop_sent + 1) % UINT32_CARD },
        WebPAnimDecoderReset)

/-- Lines 120-152: the per-call protocol once a decoder exists. -/
def decodeFromSource (c : Container) (ext : ExtCalls) (s : AnimatedWebPContext)
    (d : AnimDec) : DecodeResult × AnimatedWebPContext :=
  decodePost c ext (loop_boundary c s d).1 (loop_boundary c s d).2

/-- `decode_libwebp_frame`.  On the first call (`s->dec == NULL`): reject an
empty packet; otherwise take a reference on the payload
(`av_buffer_ref`), construct the decoder (fails iff `¬ ext.newOk`; on
failure the reference is dropped again and `AVERROR(ENOMEM)` returned),
read the stream info, derive `loop_to_send` and the canvas dimensions, and
fall through to the common per-call protocol.  The C sequence of separate
assignments to the context is expressed as one record update. -/
def decode_libwebp_frame (c : Container) (ext : ExtCalls)
    (s : AnimatedWebPContext) (pkt : List Nat) :
    DecodeResult × AnimatedWebPContext :=
  match s.dec with
  | some d => decodeFromSource c ext s d
  | none =>
    if pkt.length = 0 then
      (.einval, s)
    else if ext.newOk then
      decodeFromSource c ext
        { s with file_content := some pkt, dec := some WebPAnimDecoderReset,
                 loop_to_send := if s.ignore_loop then 1 else c.loopCount,
                 width := c.canvasWidth, height := c.canvasHeight }
        WebPAnimDecoderReset
    else
      (.enomem, { s with file_content := none })

/-- `av_buffer_unref`: drop the reference if one is held; the boolean
records whether a reference was actually released (it is a no-op on
`NULL`). -/
def av_buffer_unref (b : Option (List Nat)) : Option (List Nat) × Bool :=
  match b with
  | some _ => (none, true)
  | none => (none, false)

/-- `decode_libwebp_close`: unref the payload, then destroy the decoder if
one exists and clear the pointer.  The two booleans record whether a
payload reference was released resp. a decoder destroyed by this call. -/
def decode_libwebp_close (s : AnimatedWebPContext) :
    AnimatedWebPContext × Bool × Bool :=
  let u := av_buffer_unref s.file_content
  let s1 := { s with file_content := u.1 }
  match s1.dec with
  | some _ => ({ s1 with dec := none }, u.2, true)
  | none => (s1, u.2, false)

/-- One entry of the decoder's `AVOption` table. -/
structure AVOptionEntry where
  optName : String
  default_i64 : Int
  min_val : Int
  max_val : Int

/-- The `ignore_loop` option row of the `options[]` table. -/
def ignore_loop_option : AVOptionEntry :=
  { optName := "ignore_loop", default_i64 := 1, min_val := 0, max_val := 1 }

/-- All external collaborators succeed on this call. -/
def happyExt : ExtCalls := { newOk := true, getNextOk := true, getBufferRet := 0 }

/-- A decode call past the first: empty packet, collaborators succeed. -/
def emptyStep (c : Container) (s : AnimatedWebPContext) :
    DecodeResult × AnimatedWebPContext :=
  decode_libwebp_frame c happyExt s []

/-- From state `s`, the next `n` calls each produce a frame and the call
after them returns `AVERROR_EOF` (all with empty packets and succeeding
collaborators). -/
def framesThenEof (c : Container) (s : AnimatedWebPContext) : Nat → Bool
  | 0 => (emptyStep c s).1.isEof
  | n + 1 =>
    (emptyStep c s).1.isFrame && framesThenEof c (emptyStep c s).2 n

/-- A whole session: call 1 carries the payload `pkt`, calls 2.. are empty;
calls 1..n each produce a frame and call `n+1` returns `AVERROR_EOF`. -/
def sessionRuns (c : Container) (ig : Bool) (pkt : List Nat) : Nat → Bool
  | 0 =>
    (decode_libwebp_frame c happyExt (decode_libwebp_init ig) pkt).1.isEof
  | n + 1 =>
    (decode_libwebp_frame c happyExt (decode_libwebp_init ig) pkt).1.isFrame
      && framesThenEof c
           (decode_libwebp_frame c happyExt (decode_libwebp_init ig) pkt).2 n

/-- A concrete frame for test containers. -/
def exFrame : WebPFrame := { timestampMs := 5, pix := fun _ => 9 }

/-- 1-frame container, 1x1 canvas, declared loop count 1. -/
def cEx : Container :=
  { frameCount := 1, loopCount := 1, canvasWidth := 1, canvasHeight := 1,
    frames := fun _ => exFrame }

/-- 1-frame container declaring loop count 0 (infinite looping). -/
def cInf : Container :=
  { frameCount := 1, loopCount := 0, canvasWidth := 1, canvasHeight := 1,
    frames := fun _ => exFrame }

/-- 2-frame container declaring loop count 3 (the spec's Scenario B). -/
def cB : Container :=
  { frameCount := 2, loopCount := 3, canvasWidth := 1, canvasHeight := 1,
    frames := fun i => { timestampMs := Int.ofNat i, pix := fun _ => 0 } }

theorem ctx_set_dec_self (s : AnimatedWebPContext) (d : AnimDec)
    (h : s.dec = some d) : { s with dec := some d } = s := by
  cases s
  cases h
  rfl

theorem decodePost_eof (c : Container) (ext : ExtCalls)
    (s : AnimatedWebPContext) (d : AnimDec)
    (h : s.loop_to_send ≤ s.loop_sent) :
    decodePost c ext s d = (.eof, { s with dec := some d }) := by
  simp [decodePost, h]

theorem decodePost_frame_eq (c : Container) (ext : ExtCalls)
    (s : AnimatedWebPContext) (d : AnimDec)
    (h1 : s.loop_sent < s.loop_to_send) (h2 : ext.getNextOk = true)
    (h3 : d.pos < c.frameCount) (h4 : ext.getBufferRet = 0) :
    decodePost c ext s d =
      (.frame { width := s.width, height := s.height, format := .rgba,
                pts := (c.frames d.pos).timestampMs, pkt_dts := 0,
                pict_type := .I,
                data0 := (List.range (s.width * s.height * 4)).map
                  (c.frames d.pos).pix } 0,
       { s with dec := some { pos := d.pos + 1 } }) := by
  simp [decodePost, WebPAnimDecoderGetNext, WebPAnimDecoderHasMoreFrames,
    h2, h3, h4, Nat.not_le.mpr h1]

theorem decodePost_einval (c : Container) (ext : ExtCalls)
    (s : AnimatedWebPContext) (d : AnimDec)
    (h1 : s.loop_sent < s.loop_to_send)
    (h2 : WebPAnimDecoderGetNext c ext d = none) :
    decodePost c ext s d = (.einval, { s with dec := some d }) := by
  simp [decodePost, h2, Nat.not_le.mpr h1]

theorem decodePost_enomem (c : Container) (ext : ExtCalls)
    (s : AnimatedWebPContext) (d : AnimDec) (fr : WebPFrame) (d2 : AnimDec)
    (h1 : s.loop_sent < s.loop_to_send)
    (h2 : WebPAnimDecoderGetNext c ext d = some (fr, d2))
    (h3 : ext.getBufferRet ≠ 0) :
    decodePost c ext s d = (.enomem, { s with dec := some d2 }) := by
  simp [decodePost, h2, h3, Nat.not_le.mpr h1]

theorem loop_boundary_more (c : Container) (s : AnimatedWebPContext)
    (d : AnimDec) (h : d.pos < c.frameCount) :
    loop_boundary c s d = (s, d) := by
  simp [loop_boundary, WebPAnimDecoderHasMoreFrames, h]

theorem loop_boundary_reset (c : Container) (s : AnimatedWebPContext)
    (d : AnimDec) (h : ¬ d.pos < c.frameCount) :
    loop_boundary c s d =
      ({ s with loop_sent := (s.loop_sent + 1) % UINT32_CARD },
       WebPAnimDecoderReset) := by
  simp [loop_boundary, WebPAnimDecoderHasMoreFrames, h]

theorem decode_frame_active (c : Container) (ext : ExtCalls)
    (s : AnimatedWebPContext) (pkt : List Nat) (d : AnimDec)
    (h : s.dec = some d) :
    decode_libwebp_frame c ext s pkt = decodeFromSource c ext s d := by
  unfold decode_libwebp_frame
  rw [h]

theorem decode_first_call (c : Container) (ext : ExtCalls)
    (s : AnimatedWebPContext) (pkt : List Nat)
    (h : s.dec = none) (hp : pkt ≠ []) (hn : ext.newOk = true) :
    decode_libwebp_frame c ext s pkt =
      decodeFromSource c ext
        { s with file_content := some pkt,
                 dec := some WebPAnimDecoderReset,
                 loop_to_send := if s.ignore_loop then 1 else c.loopCount,
                 width := c.canvasWidth, height := c.canvasHeight }
        WebPAnimDecoderReset := by
  have hl : ¬ pkt.length = 0 := fun hz => hp (List.length_eq_zero.mp hz)
  unfold decode_libwebp_frame
  rw [h]
  simp [hl, hn]

theorem first_call_result (c : Container) (pkt : List Nat) (ig : Bool)
    (hF : 1 ≤ c.frameCount) (hp : pkt ≠ [])
    (hT : 1 ≤ (if ig then 1 else c.loopCount)) :
    decode_libwebp_frame c happyExt (decode_libwebp_init ig) pkt =
      (.frame { width := c.canvasWidth, height := c.canvasHeight,
                format := .rgba, pts := (c.frames 0).timestampMs,
                pkt_dts := 0, pict_type := .I,
                data0 := (List.range (c.canvasWidth * c.canvasHeight * 4)).map
                  (c.frames 0).pix } 0,
       { dec := some { pos := 1 }, file_content := some pkt,
         loop_to_send := if ig then 1 else c.loopCount, loop_sent := 0,
         ignore_loop := ig, width := c.canvasWidth,
         height := c.canvasHeight }) := by
  rw [decode_first_call c happyExt (decode_libwebp_init ig) pkt rfl hp rfl]
  rw [decodeFromSource, loop_boundary_more _ _ _ (by exact hF),
    decodePost_frame_eq _ _ _ _ (by simpa [decode_libwebp_init] using hT)
      rfl (by exact hF) rfl]
  simp [decode_libwebp_init, WebPAnimDecoderReset]

theorem framesThenEof_of_inv (c : Container) (hF : 1 ≤ c.frameCount)
    (L : Nat) (hL32 : L < UINT32_CARD) :
    ∀ (k ls pos : Nat) (s : AnimatedWebPContext),
      s.dec = some { pos := pos } → s.loop_to_send = L → s.loop_sent = ls →
      1 ≤ pos → pos ≤ c.frameCount → ls < L →
      L * c.frameCount = ls * c.frameCount + pos + k →
      framesThenEof c s k = true := by
  intro k
  induction k with
  | zero =>
    intro ls pos s hdec hts hsent h1 hpF hlsL hsum
    have hle : ls + 1 ≤ L := hlsL
    have hmul : (ls + 1) * c.frameCount ≤ L * c.frameCount :=
      Nat.mul_le_mul_right _ hle
    rw [Nat.succ_mul] at hmul
    have hposF : pos = c.frameCount := by omega
    have hLle : L ≤ ls + 1 := by
      have h2 : L * c.frameCount ≤ (ls + 1) * c.frameCount := by
        rw [Nat.succ_mul]; omega
      exact Nat.le_of_mul_le_mul_right (by simpa using h2) hF
    have hnm : ¬ ({ pos := pos } : AnimDec).pos < c.frameCount := by
      simp [hposF]
    have hmod : (ls + 1) % UINT32_CARD = ls + 1 :=
      Nat.mod_eq_of_lt (lt_of_le_of_lt hle hL32)
    simp only [framesThenEof, emptyStep]
    rw [decode_frame_active c happyExt s [] _ hdec, decodeFromSource,
      loop_boundary_reset _ _ _ hnm, decodePost_eof]
    · simp [DecodeResult.isEof]
    · simp [hts, hsent, hmod, hLle]
  | succ k ih =>
    intro ls pos s hdec hts hsent h1 hpF hlsL hsum
    by_cases hpos : pos < c.frameCount
    · have hstep :
          emptyStep c s =
            (.frame { width := s.width, height := s.height, format := .rgba,
                      pts := (c.frames pos).timestampMs, pkt_dts := 0,
                      pict_type := .I,
                      data0 := (List.range (s.width * s.height * 4)).map
                        (c.frames pos).pix } 0,
             { s with dec := some { pos := pos + 1 } }) := by
        rw [emptyStep, decode_frame_active c happyExt s [] _ hdec,
          decodeFromSource, loop_boundary_more _ _ _ (by exact hpos),
          decodePost_frame_eq _ _ _ _ (by dsimp only; omega) rfl
            (by exact hpos) rfl]
      simp only [framesThenEof, hstep, DecodeResult.isFrame, Bool.true_and]
      exact ih ls (pos + 1) _ (by simp) (by simp [hts]) (by simp [hsent])
        (by omega) hpos hlsL (by omega)
    · have hposF : pos = c.frameCount := by omega
      have hls1 : ls + 1 < L := by
        rcases Nat.lt_or_ge (ls + 1) L with h | h
        · exact h
        · exfalso
          have hEq : L = ls + 1 := by omega
          rw [hEq, Nat.succ_mul] at hsum
          omega
      have hmod : (ls + 1) % UINT32_CARD = ls + 1 :=
        Nat.mod_eq_of_lt (lt_trans hls1 hL32)
      have hnm : ¬ ({ pos := pos } : AnimDec).pos < c.frameCount := by
        simp [hposF]
      have hstep :
          emptyStep c s =
            (.frame { width := s.width, height := s.height, format := .rgba,
                      pts := (c.frames 0).timestampMs, pkt_dts := 0,
                      pict_type := .I,
                      data0 := (List.range (s.width * s.height * 4)).map
                        (c.frames 0).pix } 0,
             { s with loop_sent := (s.loop_sent + 1) % UINT32_CARD,
                      dec := some { pos := 1 } }) := by
        rw [emptyStep, decode_frame_active c happyExt s [] _ hdec,
          decodeFromSource, loop_boundary_reset _ _ _ hnm,
          decodePost_frame_eq _ _ _ _
            (by simp [hts, hsent, hmod]; omega) rfl
            (by simpa [WebPAnimDecoderReset] using hF) rfl]
        simp [WebPAnimDecoderReset]
      simp only [framesThenEof, hstep, DecodeResult.isFrame, Bool.true_and]
      refine ih (ls + 1) 1 _ (by simp) (by simp [hts]) (by simp [hsent, hmod])
        le_rfl hF hls1 ?_
      rw [Nat.succ_mul]
      omega

/-- Claim C2: for a container with `F ≥ 1` frames and declared loop count
`L ≥ 1` (a `uint32_t` value), with `ignore_loop` false the session produces
exactly `L * F` frames and the `(L*F+1)`-th call returns `AVERROR_EOF`;
with `ignore_loop` true it produces exactly `F` frames (one pass) and the
`(F+1)`-th call returns `AVERROR_EOF`, regardless of `L`. -/
theorem C2_loop_bound (c : Container) (pkt : List Nat)
    (hF : 1 ≤ c.frameCount) (hL : 1 ≤ c.loopCount)
    (hL32 : c.loopCount < UINT32_CARD) (hp : pkt ≠ []) :
    sessionRuns c false pkt (c.loopCount * c.frameCount) = true ∧
    sessionRuns c true pkt c.frameCount = true := by
  constructor
  · have hpos : 1 ≤ c.loopCount * c.frameCount := Nat.mul_pos hL hF
    obtain ⟨m, hm⟩ : ∃ m, c.loopCount * c.frameCount = m + 1 :=
      ⟨c.loopCount * c.frameCount - 1, by omega⟩
    rw [hm]
    simp only [sessionRuns]
    rw [first_call_result c pkt false hF hp (by simpa using hL)]
    simp only [DecodeResult.isFrame, Bool.true_and]
    exact framesThenEof_of_inv c hF c.loopCount hL32 m 0 1 _ rfl (by simp)
      rfl le_rfl hF hL (by omega)
  · obtain ⟨m, hm⟩ : ∃ m, c.frameCount = m + 1 := ⟨c.frameCount - 1, by omega⟩
    rw [hm]
    simp only [sessionRuns]
    rw [first_call_result c pkt true hF hp (by simp)]
    simp only [DecodeResult.isFrame, Bool.true_and]
    refine framesThenEof_of_inv c hF 1 (by simp [UINT32_CARD]) m 0 1 _ rfl
      (by simp) rfl le_rfl hF Nat.one_pos ?_
    omega

/-- Witness for C2 at the spec's Scenario B: 2-frame container, declared
loop count 3: 6 frames then `AVERROR_EOF` on call 7 with `ignore_loop`
false, 2 frames then `AVERROR_EOF` on call 3 with `ignore_loop` true. -/
theorem C2_loop_bound_witness :
    (1 ≤ cB.frameCount ∧ 1 ≤ cB.loopCount ∧ cB.loopCount < UINT32_CARD ∧
      ([1] : List Nat) ≠ []) ∧
    sessionRuns cB false [1] (cB.loopCount * cB.frameCount) = true ∧
    sessionRuns cB true [1] cB.frameCount = true :=
  ⟨by decide,
   (C2_loop_bound cB [1] (by decide) (by decide) (by decide) (by decide)).1,
   (C2_loop_bound cB [1] (by decide) (by decide) (by decide) (by decide)).2⟩

/-- Claim C1 (code evaluation): with declared loop count `0` and
`ignore_loop` false, the very first `decode_libwebp_frame` call already
returns `AVERROR_EOF` from the `loop_sent >= loop_to_send` comparison
(`0 >= 0` holds for unsigned operands), so not a single frame is produced:
the code does not treat a declared loop count of `0` as unbounded. -/
theorem C1_loop_zero_eof_immediately :
    (decode_libwebp_frame cInf happyExt (decode_libwebp_init false)
      [1]).1 = DecodeResult.eof ∧
    (decode_libwebp_frame cInf happyExt (decode_libwebp_init false)
      [1]).1.isFrame = false ∧
    cInf.loopCount = 0 ∧ 1 ≤ cInf.frameCount := by
  decide

/-- Claim C4: a first call (`s.dec = none`) with an empty input returns
`AVERROR(EINVAL)` and leaves the session state completely unchanged; in
particular no Frame Source is constructed. -/
theorem C4_first_call_empty_input (c : Container) (ext : ExtCalls)
    (s : AnimatedWebPContext) (hdec : s.dec = none) :
    decode_libwebp_frame c ext s [] = (.einval, s) ∧
    (decode_libwebp_frame c ext s []).2.dec = none := by
  have h1 : decode_libwebp_frame c ext s [] = (.einval, s) := by
    simp [decode_libwebp_frame, hdec]
  exact ⟨h1, by rw [h1]; exact hdec⟩

/-- Witness for C4 on a freshly opened session. -/
theorem C4_first_call_empty_input_witness :
    (decode_libwebp_init true).dec = none ∧
    decode_libwebp_frame cEx happyExt (decode_libwebp_init true) [] =
      (.einval, decode_libwebp_init true) :=
  ⟨by decide,
   (C4_first_call_empty_input cEx happyExt (decode_libwebp_init true)
     rfl).1⟩

/-- Claim C5: if Frame Source construction fails on the first call, the
payload reference taken during the call is released again, the call
returns `AVERROR(ENOMEM)`, and the session keeps no Frame Source, no
payload reference, and none of the derived fields are touched. -/
theorem C5_construction_failure (c : Container) (ext : ExtCalls)
    (s : AnimatedWebPContext) (pkt : List Nat)
    (hdec : s.dec = none) (hp : pkt ≠ []) (hn : ext.newOk = false) :
    (decode_libwebp_frame c ext s pkt).1 = .enomem ∧
    (decode_libwebp_frame c ext s pkt).2.dec = none ∧
    (decode_libwebp_frame c ext s pkt).2.file_content = none ∧
    (decode_libwebp_frame c ext s pkt).2.loop_to_send = s.loop_to_send ∧
    (decode_libwebp_frame c ext s pkt).2.loop_sent = s.loop_sent ∧
    (decode_libwebp_frame c ext s pkt).2.width = s.width ∧
    (decode_libwebp_frame c ext s pkt).2.height = s.height := by
  have hl : ¬ pkt.length = 0 := fun hz => hp (List.length_eq_zero.mp hz)
  simp [decode_libwebp_frame, hdec, hl, hn]

/-- Witness for C5: construction failure on a fresh session with a
non-empty payload. -/
theorem C5_construction_failure_witness :
    ((decode_libwebp_init true).dec = none ∧ ([1] : List Nat) ≠ [] ∧
      ({ newOk := false, getNextOk := true, getBufferRet := 0 } :
        ExtCalls).newOk = false) ∧
    (decode_libwebp_frame cEx
      { newOk := false, getNextOk := true, getBufferRet := 0 }
      (decode_libwebp_init true) [1]).1 = .enomem ∧
    (decode_libwebp_frame cEx
      { newOk := false, getNextOk := true, getBufferRet := 0 }
      (decode_libwebp_init true) [1]).2.file_content = none :=
  ⟨by decide,
   (C5_construction_failure cEx _ (decode_libwebp_init true) [1] rfl
     (by decide) rfl).1,
   (C5_construction_failure cEx _ (decode_libwebp_init true) [1] rfl
     (by decide) rfl).2.2.1⟩

theorem decodePost_loop_to_send (c : Container) (ext : ExtCalls)
    (s : AnimatedWebPContext) (d : AnimDec) :
    (decodePost c ext s d).2.loop_to_send = s.loop_to_send := by
  unfold decodePost
  split
  · rfl
  · split
    · rfl
    · split
      · rfl
      · rfl

theorem loop_boundary_fst_loop_to_send (c : Container)
    (s : AnimatedWebPContext) (d : AnimDec) :
    (loop_boundary c s d).1.loop_to_send = s.loop_to_send := by
  unfold loop_boundary
  split <;> rfl

theorem decodeFromSource_loop_to_send (c : Container) (ext : ExtCalls)
    (s : AnimatedWebPContext) (d : AnimDec) :
    (decodeFromSource c ext s d).2.loop_to_send = s.loop_to_send := by
  unfold decodeFromSource
  rw [decodePost_loop_to_send, loop_boundary_fst_loop_to_send]

/-- An already-initialized session state used by several witnesses. -/
def sAct : AnimatedWebPContext :=
  { dec := some { pos := 0 }, file_content := some [1], loop_to_send := 2,
    loop_sent := 0, ignore_loop := false, width := 1, height := 1 }

/-- Claim C6: `loop_to_send` is derived exactly once, at first-step
initialization, as `1` if `ignore_loop` is set and the container's
declared loop count otherwise; calls finding an existing decoder never
change it; and the `ignore_loop` option defaults to true (`.i64 = 1`). -/
theorem C6_loop_target (c : Container) (ext : ExtCalls)
    (s : AnimatedWebPContext) (pkt : List Nat) :
    (s.dec = none → pkt ≠ [] → ext.newOk = true →
      (decode_libwebp_frame c ext s pkt).2.loop_to_send =
        if s.ignore_loop then 1 else c.loopCount) ∧
    (∀ d, s.dec = some d →
      (decode_libwebp_frame c ext s pkt).2.loop_to_send = s.loop_to_send) ∧
    ignore_loop_option.default_i64 = 1 := by
  refine ⟨?_, ?_, rfl⟩
  · intro hdec hp hn
    rw [decode_first_call c ext s pkt hdec hp hn,
      decodeFromSource_loop_to_send]
  · intro d hdec
    rw [decode_frame_active c ext s pkt d hdec,
      decodeFromSource_loop_to_send]

/-- Witness for C6: a first call deriving the target from the declared
count, a later call preserving it, and the option default. -/
theorem C6_loop_target_witness :
    (decode_libwebp_frame cB happyExt (decode_libwebp_init false)
      [1]).2.loop_to_send =
      (if (decode_libwebp_init false).ignore_loop then 1
       else cB.loopCount) ∧
    (decode_libwebp_frame cB happyExt sAct []).2.loop_to_send =
      sAct.loop_to_send ∧
    ignore_loop_option.default_i64 = 1 :=
  ⟨(C6_loop_target cB happyExt (decode_libwebp_init false) [1]).1 rfl
     (by decide) rfl,
   (C6_loop_target cB happyExt sAct []).2.1 { pos := 0 } rfl,
   (C6_loop_target cB happyExt sAct []).2.2⟩

/-- Claim C7: on a call past initialization that has not reached the loop
target, a `WebPAnimDecoderGetNext` failure makes the call return
`AVERROR(EINVAL)` with no frame produced, and an `ff_get_buffer` failure
makes it return `AVERROR(ENOMEM)`, aborting the step with no output. -/
theorem C7_step_errors (c : Container) (ext : ExtCalls)
    (s : AnimatedWebPContext) (pkt : List Nat) (d : AnimDec)
    (hdec : s.dec = some d)
    (hactive : (loop_boundary c s d).1.loop_sent <
      (loop_boundary c s d).1.loop_to_send) :
    (WebPAnimDecoderGetNext c ext (loop_boundary c s d).2 = none →
      (decode_libwebp_frame c ext s pkt).1 = .einval) ∧
    (∀ fr d2,
      WebPAnimDecoderGetNext c ext (loop_boundary c s d).2 = some (fr, d2) →
      ext.getBufferRet ≠ 0 →
      (decode_libwebp_frame c ext s pkt).1 = .enomem) := by
  constructor
  · intro hgn
    rw [decode_frame_active c ext s pkt d hdec, decodeFromSource,
      decodePost_einval _ _ _ _ hactive hgn]
  · intro fr d2 hgn hbuf
    rw [decode_frame_active c ext s pkt d hdec, decodeFromSource,
      decodePost_enomem _ _ _ _ fr d2 hactive hgn hbuf]

/-- This call's `WebPAnimDecoderGetNext` fails. -/
def extNoNext : ExtCalls :=
  { newOk := true, getNextOk := false, getBufferRet := 0 }

/-- This call's `ff_get_buffer` fails. -/
def extNoBuf : ExtCalls :=
  { newOk := true, getNextOk := true, getBufferRet := -1 }

/-- Witness for C7: frame-production failure and buffer-acquisition
failure on an active session. -/
theorem C7_step_errors_witness :
    (decode_libwebp_frame cEx extNoNext sAct []).1 = .einval ∧
    (decode_libwebp_frame cEx extNoBuf sAct []).1 = .enomem :=
  ⟨(C7_step_errors cEx extNoNext sAct [] { pos := 0 } rfl (by decide)).1
     (by rfl),
   (C7_step_errors cEx extNoBuf sAct [] { pos := 0 } rfl (by decide)).2
     (cEx.frames 0) { pos := 1 } (by rfl) (by decide)⟩

/-- Claim C8: teardown is idempotent and safe before any decode call: the
first `decode_libwebp_close` releases the payload reference iff one is
held and destroys the decoder iff one exists; a second close releases and
destroys nothing; and closing a freshly opened session is a no-op that
releases nothing. -/
theorem C8_close_idempotent (s : AnimatedWebPContext) (ig : Bool) :
    ((decode_libwebp_close s).2.1 = s.file_content.isSome) ∧
    ((decode_libwebp_close s).2.2 = s.dec.isSome) ∧
    ((decode_libwebp_close (decode_libwebp_close s).1).2.1 = false) ∧
    ((decode_libwebp_close (decode_libwebp_close s).1).2.2 = false) ∧
    ((decode_libwebp_close s).1.file_content = none) ∧
    ((decode_libwebp_close s).1.dec = none) ∧
    (decode_libwebp_close (decode_libwebp_init ig) =
      (decode_libwebp_init ig, false, false)) := by
  obtain ⟨d0, f0, a, b, e, w, h⟩ := s
  cases d0 <;> cases f0 <;>
    simp [decode_libwebp_close, av_buffer_unref, decode_libwebp_init]

theorem decodePost_frame_ret (c : Container) (ext : ExtCalls)
    (s : AnimatedWebPContext) (d : AnimDec) (p : AVFrame) (r : Int)
    (h : (decodePost c ext s d).1 = .frame p r) :
    r = ext.getBufferRet ∧ ext.getBufferRet = 0 := by
  unfold decodePost at h
  split at h
  · simp at h
  · split at h
    · simp at h
    · split at h
      · simp at h
      · rename_i hbuf
        push_neg at hbuf
        simp at h
        exact ⟨h.2.symm, hbuf⟩

/-- Claim C9: every call that produces a frame returns the
`ff_get_buffer` result, which is `0`, as the function's integer result —
not the number of input bytes consumed (the initial `ret = avpkt->size`
is dead on the success path). -/
theorem C9_success_return (c : Container) (ext : ExtCalls)
    (s : AnimatedWebPContext) (pkt : List Nat) (p : AVFrame) (r : Int)
    (h : (decode_libwebp_frame c ext s pkt).1 = .frame p r) :
    r = ext.getBufferRet ∧ r = 0 := by
  have key : ∀ (s0 : AnimatedWebPContext) (d0 : AnimDec),
      (decodeFromSource c ext s0 d0).1 = .frame p r →
      r = ext.getBufferRet ∧ r = 0 := by
    intro s0 d0 hf
    rw [decodeFromSource] at hf
    obtain ⟨h1, h2⟩ := decodePost_frame_ret _ _ _ _ _ _ hf
    exact ⟨h1, h1.trans h2⟩
  cases hdec : s.dec with
  | some d =>
    rw [decode_frame_active c ext s pkt d hdec] at h
    exact key _ _ h
  | none =>
    by_cases hl : pkt = []
    · subst hl
      simp [decode_libwebp_frame, hdec] at h
    · by_cases hn : ext.newOk = true
      · rw [decode_first_call c ext s pkt hdec hl hn] at h
        exact key _ _ h
      · have hl2 : ¬ pkt.length = 0 :=
          fun hz => hl (List.length_eq_zero.mp hz)
        simp at hn
        simp [decode_libwebp_frame, hdec, hl2, hn] at h

/-- The frame the model produces from `cEx` on a successful first call. -/
def pEx : AVFrame :=
  { width := 1, height := 1, format := .rgba, pts := 5, pkt_dts := 0,
    pict_type := .I, data0 := [9, 9, 9, 9] }

/-- Witness for C9: the first call carries a 5-byte payload, produces a
frame, and still returns `0`, the `ff_get_buffer` result. -/
theorem C9_success_return_witness :
    (decode_libwebp_frame cEx happyExt (decode_libwebp_init true)
      [1, 2, 3, 4, 5]).1 = DecodeResult.frame pEx 0 ∧
    ((0 : Int) = happyExt.getBufferRet ∧ (0 : Int) = 0) :=
  ⟨by decide,
   C9_success_return cEx happyExt (decode_libwebp_init true)
     [1, 2, 3, 4, 5] pEx 0 (by decide)⟩

theorem loop_boundary_fst_width (c : Container) (s : AnimatedWebPContext)
    (d : AnimDec) : (loop_boundary c s d).1.width = s.width := by
  unfold loop_boundary
  split <;> rfl

theorem loop_boundary_fst_height (c : Container) (s : AnimatedWebPContext)
    (d : AnimDec) : (loop_boundary c s d).1.height = s.height := by
  unfold loop_boundary
  split <;> rfl

theorem decodePost_frame_shape (c : Container) (ext : ExtCalls)
    (s : AnimatedWebPContext) (d : AnimDec) (p : AVFrame) (r : Int)
    (h : (decodePost c ext s d).1 = .frame p r) :
    d.pos < c.frameCount ∧
    p = { width := s.width, height := s.height, format := .rgba,
          pts := (c.frames d.pos).timestampMs, pkt_dts := 0,
          pict_type := .I,
          data0 := (List.range (s.width * s.height * 4)).map
            (c.frames d.pos).pix } := by
  by_cases h1 : s.loop_to_send ≤ s.loop_sent
  · rw [decodePost_eof c ext s d h1] at h
    simp at h
  · push_neg at h1
    by_cases hc : (ext.getNextOk && WebPAnimDecoderHasMoreFrames c d) = true
    · simp only [Bool.and_eq_true] at hc
      have hok : ext.getNextOk = true := hc.1
      have hlt : d.pos < c.frameCount := by
        simpa [WebPAnimDecoderHasMoreFrames] using hc.2
      by_cases hbuf : ext.getBufferRet = 0
      · rw [decodePost_frame_eq c ext s d h1 hok hlt hbuf] at h
        have h2 : DecodeResult.frame
            { width := s.width, height := s.height, format := .rgba,
              pts := (c.frames d.pos).timestampMs, pkt_dts := 0,
              pict_type := .I,
              data0 := (List.range (s.width * s.height * 4)).map
                (c.frames d.pos).pix } 0 = .frame p r := h
        injection h2 with ha hb
        exact ⟨hlt, ha.symm⟩
      · cases hgn : WebPAnimDecoderGetNext c ext d with
        | none =>
          rw [decodePost_einval c ext s d h1 hgn] at h
          simp at h
        | some v =>
          rw [decodePost_enomem c ext s d v.1 v.2 h1 (by rw [hgn]) hbuf]
            at h
          simp at h
    · have hgn : WebPAnimDecoderGetNext c ext d = none := by
        unfold WebPAnimDecoderGetNext
        rw [if_neg hc]
      rw [decodePost_einval c ext s d h1 hgn] at h
      simp at h

/-- Claim C3: any call on a session whose stored canvas dimensions match
the container metadata (or whose Frame Source is only being constructed
this call) that produces a frame stamps it with the canvas width/height,
RGBA format, decode timestamp `0`, intra picture type, a pixel buffer of
exactly `canvasWidth * canvasHeight * 4` bytes, and a presentation
timestamp equal to the Frame Source's millisecond timestamp for the frame
it composited. -/
theorem C3_frame_stamp (c : Container) (ext : ExtCalls)
    (s : AnimatedWebPContext) (pkt : List Nat) (p : AVFrame) (r : Int)
    (hdims : s.dec = none ∨
      (s.width = c.canvasWidth ∧ s.height = c.canvasHeight))
    (h : (decode_libwebp_frame c ext s pkt).1 = .frame p r) :
    p.width = c.canvasWidth ∧ p.height = c.canvasHeight ∧
    p.format = .rgba ∧ p.pkt_dts = 0 ∧ p.pict_type = .I ∧
    p.data0.length = c.canvasWidth * c.canvasHeight * 4 ∧
    ∃ i, i < c.frameCount ∧ p.pts = (c.frames i).timestampMs ∧
      p.data0 = (List.range (c.canvasWidth * c.canvasHeight * 4)).map
        (c.frames i).pix := by
  have key : ∀ (s0 : AnimatedWebPContext) (d0 : AnimDec),
      s0.width = c.canvasWidth → s0.height = c.canvasHeight →
      (decodeFromSource c ext s0 d0).1 = .frame p r →
      p.width = c.canvasWidth ∧ p.height = c.canvasHeight ∧
      p.format = .rgba ∧ p.pkt_dts = 0 ∧ p.pict_type = .I ∧
      p.data0.length = c.canvasWidth * c.canvasHeight * 4 ∧
      ∃ i, i < c.frameCount ∧ p.pts = (c.frames i).timestampMs ∧
        p.data0 = (List.range (c.canvasWidth * c.canvasHeight * 4)).map
          (c.frames i).pix := by
    intro s0 d0 hw hh hf
    rw [decodeFromSource] at hf
    obtain ⟨hlt, hp⟩ := decodePost_frame_shape c ext _ _ p r hf
    rw [loop_boundary_fst_width, loop_boundary_fst_height, hw, hh] at hp
    subst hp
    exact ⟨rfl, rfl, rfl, rfl, rfl, by simp,
      ⟨(loop_boundary c s0 d0).2.pos, hlt, rfl, rfl⟩⟩
  cases hdec : s.dec with
  | some d =>
    rcases hdims with h0 | ⟨hw, hh⟩
    · rw [hdec] at h0
      exact absurd h0 (by simp)
    · rw [decode_frame_active c ext s pkt d hdec] at h
      exact key s d hw hh h
  | none =>
    by_cases hl : pkt = []
    · subst hl
      simp [decode_libwebp_frame, hdec] at h
    · by_cases hn : ext.newOk = true
      · rw [decode_first_call c ext s pkt hdec hl hn] at h
        exact key _ _ rfl rfl h
      · have hl2 : ¬ pkt.length = 0 :=
          fun hz => hl (List.length_eq_zero.mp hz)
        simp at hn
        simp [decode_libwebp_frame, hdec, hl2, hn] at h

/-- Witness for C3: the first call on `cEx` produces `pEx`, which carries
the canvas dimensions, RGBA, dts 0, intra type, a 4-byte plane and the
frame's own timestamp. -/
theorem C3_frame_stamp_witness :
    (decode_libwebp_frame cEx happyExt (decode_libwebp_init true) [3]).1 =
      DecodeResult.frame pEx 0 ∧
    (pEx.width = cEx.canvasWidth ∧ pEx.height = cEx.canvasHeight ∧
      pEx.format = .rgba ∧ pEx.pkt_dts = 0 ∧ pEx.pict_type = .I ∧
      pEx.data0.length = cEx.canvasWidth * cEx.canvasHeight * 4 ∧
      ∃ i, i < cEx.frameCount ∧ pEx.pts = (cEx.frames i).timestampMs ∧
        pEx.data0 =
          (List.range (cEx.canvasWidth * cEx.canvasHeight * 4)).map
            (cEx.frames i).pix) :=
  ⟨by decide,
   C3_frame_stamp cEx happyExt (decode_libwebp_init true) [3] pEx 0
     (Or.inl rfl) (by decide)⟩

theorem eof_absorbing_state (c : Container) (ext : ExtCalls)
    (s : AnimatedWebPContext) (pkt : List Nat) (d : AnimDec)
    (hdec : s.dec = some d) (hlt : d.pos < c.frameCount)
    (hge : s.loop_to_send ≤ s.loop_sent) :
    decode_libwebp_frame c ext s pkt = (.eof, s) := by
  rw [decode_frame_active c ext s pkt d hdec, decodeFromSource,
    loop_boundary_more c s d hlt, decodePost_eof c ext s d hge,
    ctx_set_dec_self s d hdec]

theorem decodePost_eof_inv (c : Container) (ext : ExtCalls)
    (s : AnimatedWebPContext) (d : AnimDec)
    (h : (decodePost c ext s d).1 = .eof) :
    s.loop_to_send ≤ s.loop_sent := by
  by_contra hlt
  push_neg at hlt
  by_cases hc : (ext.getNextOk && WebPAnimDecoderHasMoreFrames c d) = true
  · simp only [Bool.and_eq_true] at hc
    have hok : ext.getNextOk = true := hc.1
    have hlt2 : d.pos < c.frameCount := by
      simpa [WebPAnimDecoderHasMoreFrames] using hc.2
    by_cases hbuf : ext.getBufferRet = 0
    · rw [decodePost_frame_eq c ext s d hlt hok hlt2 hbuf] at h
      simp at h
    · cases hgn : WebPAnimDecoderGetNext c ext d with
      | none =>
        rw [decodePost_einval c ext s d hlt hgn] at h
        simp at h
      | some v =>
        rw [decodePost_enomem c ext s d v.1 v.2 hlt (by rw [hgn]) hbuf]
          at h
        simp at h
  · have hgn : WebPAnimDecoderGetNext c ext d = none := by
      unfold WebPAnimDecoderGetNext
      rw [if_neg hc]
    rw [decodePost_einval c ext s d hlt hgn] at h
    simp at h

theorem decodeFromSource_eof_state (c : Container) (ext : ExtCalls)
    (s : AnimatedWebPContext) (d : AnimDec) (hF : 1 ≤ c.frameCount)
    (h : (decodeFromSource c ext s d).1 = .eof) :
    ∃ d2, (decodeFromSource c ext s d).2.dec = some d2 ∧
      d2.pos < c.frameCount ∧
      (decodeFromSource c ext s d).2.loop_to_send ≤
        (decodeFromSource c ext s d).2.loop_sent := by
  have hd1 : (loop_boundary c s d).2.pos < c.frameCount := by
    unfold loop_boundary
    split
    · rename_i hmore
      simpa [WebPAnimDecoderHasMoreFrames] using hmore
    · simpa [WebPAnimDecoderReset] using hF
  rw [decodeFromSource] at h
  have hge := decodePost_eof_inv c ext (loop_boundary c s d).1
    (loop_boundary c s d).2 h
  rw [decodeFromSource, decodePost_eof c ext _ _ hge]
  exact ⟨(loop_boundary c s d).2, by simp, hd1, by simpa using hge⟩

/-- Claim C10: termination is absorbing.  If a call returns `AVERROR_EOF`
(on a container with at least one frame), every subsequent call — with any
collaborator outcomes and any packet — returns `AVERROR_EOF` again,
produces no frame, and leaves the whole session state (in particular
`loop_sent` and `loop_to_send`) unchanged. -/
theorem C10_eof_absorbing (c : Container) (ext : ExtCalls)
    (s : AnimatedWebPContext) (pkt : List Nat) (hF : 1 ≤ c.frameCount)
    (h : (decode_libwebp_frame c ext s pkt).1 = .eof) :
    ∀ (ext2 : ExtCalls) (pkt2 : List Nat),
      decode_libwebp_frame c ext2 (decode_libwebp_frame c ext s pkt).2
          pkt2 =
        (.eof, (decode_libwebp_frame c ext s pkt).2) := by
  intro ext2 pkt2
  have hstate : ∃ d2, (decode_libwebp_frame c ext s pkt).2.dec = some d2 ∧
      d2.pos < c.frameCount ∧
      (decode_libwebp_frame c ext s pkt).2.loop_to_send ≤
        (decode_libwebp_frame c ext s pkt).2.loop_sent := by
    cases hdec : s.dec with
    | some d =>
      rw [decode_frame_active c ext s pkt d hdec] at h ⊢
      exact decodeFromSource_eof_state c ext s d hF h
    | none =>
      by_cases hl : pkt = []
      · subst hl
        simp [decode_libwebp_frame, hdec] at h
      · by_cases hn : ext.newOk = true
        · rw [decode_first_call c ext s pkt hdec hl hn] at h ⊢
          exact decodeFromSource_eof_state c ext _ _ hF h
        · have hl2 : ¬ pkt.length = 0 :=
            fun hz => hl (List.length_eq_zero.mp hz)
          simp at hn
          simp [decode_libwebp_frame, hdec, hl2, hn] at h
  obtain ⟨d2, hd, hlt, hge⟩ := hstate
  exact eof_absorbing_state c ext2 _ pkt2 d2 hd hlt hge

/-- A session over `cEx` that has delivered its single pass: the next call
returns `AVERROR_EOF`. -/
def sDone : AnimatedWebPContext :=
  { dec := some { pos := 1 }, file_content := some [1], loop_to_send := 1,
    loop_sent := 0, ignore_loop := true, width := 1, height := 1 }

/-- Witness for C10: after the call that signals `AVERROR_EOF`, the next
call returns `AVERROR_EOF` with an unchanged state. -/
theorem C10_eof_absorbing_witness :
    (1 ≤ cEx.frameCount ∧
      (decode_libwebp_frame cEx happyExt sDone []).1 = DecodeResult.eof) ∧
    decode_libwebp_frame cEx happyExt
        (decode_libwebp_frame cEx happyExt sDone []).2 [] =
      (DecodeResult.eof, (decode_libwebp_frame cEx happyExt sDone []).2) :=
  ⟨⟨by decide, by decide⟩,
   C10_eof_absorbing cEx happyExt sDone [] (by decide) (by decide)
     happyExt []⟩

/-- Witness for C8 at a concrete fully-initialized session. -/
theorem C8_close_idempotent_witness :
    ((decode_libwebp_close sDone).2.1 = sDone.file_content.isSome) ∧
    ((decode_libwebp_close sDone).2.2 = sDone.dec.isSome) ∧
    ((decode_libwebp_close (decode_libwebp_close sDone).1).2.1 = false) ∧
    ((decode_libwebp_close (decode_libwebp_close sDone).1).2.2 = false) ∧
    ((decode_libwebp_close sDone).1.file_content = none) ∧
    ((decode_libwebp_close sDone).1.dec = none) ∧
    (decode_libwebp_close (decode_libwebp_init true) =
      (decode_libwebp_init true, false, false)) :=
  C8_close_idempotent sDone true
